import Mathlib

/-!
Shallow embedding of the underwriting aggregation-and-decision engine of the
full-revenue backend (`src/services/underwriting.service.ts` and
`src/clients/googleClient.ts`), with the data model of `src/models/Application.ts`.

Modelling conventions:
* JavaScript `number` is embedded as `ℚ` (the code only does field arithmetic
  and comparisons); `Math.round` is embedded as `jsRound` (round half toward
  positive infinity, which is the JavaScript semantics).
* Optional TypeScript fields (`x?: T`) are embedded as `Option`; JavaScript
  truthiness checks on them are made explicit at each use site.
* Adapter calls that may throw (transport error, malformed response, elapsed
  timeout) are embedded as `Except String` values handed to the orchestrator;
  the `try`/`catch` blocks of the orchestrator become pattern matches.
* `fetched_at` / `decided_at` wall-clock timestamps and log calls are elided:
  no decision logic reads them.
-/

namespace FRB

/-- Embedding of JavaScript `Math.round`: round half toward positive infinity. -/
def jsRound (q : ℚ) : ℤ := ⌊q + 1/2⌋

/-- `PlacesResult` record of `src/models/Application.ts` (fields that the
decision logic reads; `place_id`, `business_name`, `rating_trend_3m`,
`listing_age_years`, `location_count` and `fetched_at` are carried along in the
code but never read by any computation). -/
structure PlacesResult where
  connected : Bool
  rating : Option ℚ := none
  total_review_count : Option ℚ := none
  price_level_index : Option ℚ := none
  is_verified : Option Bool := none
  categories : Option (List String) := none
  has_website : Option Bool := none
  business_status : Option String := none
  signals_score : Option ℚ := none
deriving DecidableEq

/-- The commercial-keyword list of `computeSignalsScore` in
`src/clients/googleClient.ts`. -/
def commercialTypes : List String :=
  ["restaurant", "food", "store", "bakery", "cafe", "bar", "supermarket", "pharmacy"]

/-- Boolean check that `t` occurs as a contiguous sublist of `s`. -/
def isInfixChars (t : List Char) : List Char → Bool
  | [] => t.isEmpty
  | c :: rest => t.isPrefixOf (c :: rest) || isInfixChars t rest

/-- Embedding of `c.toLowerCase().includes(t)` over the category strings. -/
def containsLowered (c t : String) : Bool :=
  isInfixChars t.toList c.toLower.toList

/-- The `hasCommercialType` check of `computeSignalsScore`:
`data.categories?.some((c) => commercialTypes.some((t) => c.toLowerCase().includes(t)))`. -/
def hasCommercialType (categories : Option (List String)) : Bool :=
  match categories with
  | none => false
  | some cs => cs.any fun c => commercialTypes.any fun t => containsLowered c t

/-- Rating block of `computeSignalsScore` — Operational Quality (25 pts).
The guard `if (data.rating)` is JavaScript truthiness: it skips the whole
block when the rating is `undefined` or `0`. -/
def ratingPoints (rating : Option ℚ) : ℕ :=
  match rating with
  | none => 0
  | some r =>
    if r = 0 then 0
    else if r ≥ 45/10 then 25
    else if r ≥ 4 then 20
    else if r ≥ 35/10 then 12
    else 5

/-- Review-volume block of `computeSignalsScore` — Business Scale (20 pts);
`if (data.total_review_count)` skips the block on `undefined` or `0`. -/
def reviewPoints (count : Option ℚ) : ℕ :=
  match count with
  | none => 0
  | some n =>
    if n = 0 then 0
    else if n ≥ 200 then 20
    else if n ≥ 100 then 15
    else if n ≥ 50 then 10
    else if n ≥ 10 then 5
    else 0

/-- Price-level block of `computeSignalsScore` (5 pts):
`if (data.price_level_index && data.price_level_index >= 3)`. -/
def pricePoints (priceLevel : Option ℚ) : ℕ :=
  match priceLevel with
  | none => 0
  | some p => if p = 0 then 0 else if p ≥ 3 then 5 else 0

/-- The score accumulated by `computeSignalsScore` in
`src/clients/googleClient.ts` before the final `Math.min(score, 100)` cap:
the seven blocks added in source order. -/
def signalsSum (data : PlacesResult) : ℕ :=
  ratingPoints data.rating +
  reviewPoints data.total_review_count +
  (if data.is_verified = some true then 10 else 0) +
  (if data.has_website = some true then 10 else 0) +
  (if data.business_status = some "OPERATIONAL" then 10 else 0) +
  (if hasCommercialType data.categories then 10 else 0) +
  pricePoints data.price_level_index

/-- Embedding of `GooglePlacesClient.computeSignalsScore`
(`src/clients/googleClient.ts`, lines 173–212): accumulated weighted
sub-scores, capped by `Math.min(score, 100)`. -/
def computeSignalsScore (data : PlacesResult) : ℕ :=
  min (signalsSum data) 100

/-! ### Revenue Scoring Engine (`computeTotalRevenue`, underwriting.service.ts 401–468)

Each local constant of the source function becomes a named definition. -/

/-- `placesBoost = 1 + (placesScore / 100) * 0.20` — listings boost, max +20%. -/
def placesBoost (placesScore : ℚ) : ℚ :=
  1 + placesScore / 100 * (20/100)

/-- `facebookBoost` — tiered boost by community size; 0 when `facebookFans`
is `undefined`. -/
def facebookBoost (facebookFans : Option ℚ) : ℚ :=
  match facebookFans with
  | none => 0
  | some fans => if fans ≥ 5000 then 8/100 else if fans ≥ 1000 then 5/100 else 2/100

/-- `instagramBoost` — tiered boost by follower count; 0 when undefined. -/
def instagramBoost (instagramFollowers : Option ℚ) : ℚ :=
  match instagramFollowers with
  | none => 0
  | some f => if f ≥ 5000 then 7/100 else if f ≥ 1000 then 4/100 else 1/100

/-- `socialBoost = 1 + facebookBoost + instagramBoost`. -/
def socialBoost (facebookFans instagramFollowers : Option ℚ) : ℚ :=
  1 + facebookBoost facebookFans + instagramBoost instagramFollowers

/-- `identityBoost` — ×1.05 on `twilioIdentityMatch === true`, else ×1.0. -/
def identityBoost (twilioIdentityMatch : Option Bool) : ℚ :=
  if twilioIdentityMatch = some true then 105/100 else 1

/-- `whatsappBoost` — ×1.03 on `twilioWhatsapp === true`, else ×1.0. -/
def whatsappBoost (twilioWhatsapp : Option Bool) : ℚ :=
  if twilioWhatsapp = some true then 103/100 else 1

/-- `simSwapPenalty` — ×0.90 on `twilioSimSwap === true`, else ×1.0. -/
def simSwapPenalty (twilioSimSwap : Option Bool) : ℚ :=
  if twilioSimSwap = some true then 90/100 else 1

/-- `bureauMultiplier` — ×1.10 above 700, ×1.0 above 600, ×0.90 otherwise;
×1.0 when the score is `undefined`. -/
def bureauMultiplier (bureauScore : Option ℚ) : ℚ :=
  match bureauScore with
  | none => 1
  | some s => if s > 700 then 110/100 else if s > 600 then 1 else 90/100

/-- `tenureMultiplier` — ×1.05 above 24 months, ×0.95 below 6, else ×1.0;
×1.0 when `undefined`. -/
def tenureMultiplier (tenureMonths : Option ℚ) : ℚ :=
  match tenureMonths with
  | none => 1
  | some t => if t > 24 then 105/100 else if t < 6 then 95/100 else 1

/-- `complianceMultiplier` — ×1.0 when compliant, ×0.80 when not. -/
def complianceMultiplier (taxCompliance : Bool) : ℚ :=
  if taxCompliance then 1 else 80/100

/-- Embedding of `computeTotalRevenue` (underwriting.service.ts 401–468):
short-circuits to 0 on a zero base, otherwise rounds the product of the base
with every boost/penalty factor. -/
def computeTotalRevenue (syntageMonthly placesScore : ℚ)
    (bureauScore tenureMonths : Option ℚ) (taxCompliance : Bool)
    (facebookFans instagramFollowers : Option ℚ)
    (twilioIdentityMatch twilioWhatsapp twilioSimSwap : Option Bool) : ℤ :=
  if syntageMonthly = 0 then 0
  else
    jsRound
      (syntageMonthly *
        placesBoost placesScore *
        socialBoost facebookFans instagramFollowers *
        identityBoost twilioIdentityMatch *
        whatsappBoost twilioWhatsapp *
        simSwapPenalty twilioSimSwap *
        bureauMultiplier bureauScore *
        tenureMultiplier tenureMonths *
        complianceMultiplier taxCompliance)

/-! ### Decision Resolver and Credit Offer Calculator -/

/-- `DecisionStatus` of `src/models/Application.ts`. -/
inductive DecisionStatus where
  | UNDERWRITING_PENDING
  | APPROVED
  | REJECTED
  | MANUAL_REVIEW
deriving DecidableEq

/-- Embedding of the status derivation of `runUnderwriting`
(underwriting.service.ts 326–330): `APPROVED` when the total reaches the
configured threshold, `MANUAL_REVIEW` on a positive total below it,
`REJECTED` otherwise. -/
def resolveStatus (threshold : ℚ) (totalRevenue : ℤ) : DecisionStatus :=
  if (totalRevenue : ℚ) ≥ threshold then .APPROVED
  else if totalRevenue > 0 then .MANUAL_REVIEW
  else .REJECTED

/-- `CreditOffer` record of `src/models/Application.ts`; amounts are the
rounded integers the code produces. -/
structure CreditOffer where
  approved_amount : ℤ
  interest_rate_monthly : ℚ
  installments : ℕ
  monthly_payment : ℤ
  withholding_amount : ℤ
  direct_debit_amount : ℤ
  currency : String
deriving DecidableEq

/-- Embedding of `computeCreditOffer` (underwriting.service.ts 539–576):
tier multiplier on the pre-approved base, bureau-driven monthly rate, annuity
monthly payment over 12 installments, and the 20% withholding split resolved
by subtraction. -/
def computeCreditOffer (baseRevenue : ℚ) (bureauScore : Option ℚ)
    (dataSourceCount : ℕ) (hasSocial : Bool := false) (hasFiscal : Bool := false) :
    CreditOffer :=
  let multiplier : ℚ := if hasFiscal then 2 else if hasSocial then 14/10 else 12/10
  let approvedAmount : ℤ := jsRound (baseRevenue * multiplier / 1000) * 1000
  let rate : ℚ :=
    match bureauScore with
    | some s => if s > 700 then 30/1000 else if s > 600 then 34/1000 else 38/1000
    | none => 38/1000
  let installments : ℕ := 12
  let monthlyPayment : ℤ :=
    jsRound ((approvedAmount * rate) / (1 - (1 + rate) ^ (-(installments : ℤ))))
  let withholdingAmount : ℤ := jsRound ((monthlyPayment : ℚ) * (20/100))
  let directDebitAmount : ℤ := monthlyPayment - withholdingAmount
  { approved_amount := approvedAmount
    interest_rate_monthly := rate
    installments := installments
    monthly_payment := monthlyPayment
    withholding_amount := withholdingAmount
    direct_debit_amount := directDebitAmount
    currency := "MXN" }

/-! ### Aggregation Orchestrator (`runUnderwriting`, underwriting.service.ts 36–395)

Each adapter call (`withTimeout(client..., ms, msg)`) either resolves to a
result record or throws (transport error, malformed response, elapsed
timeout); the orchestrator catches every throw. We embed one underwriting run
as a pure function of the seven call outcomes, each an `Except String` value:
`Except.error` is a throw, caught by the corresponding `catch` block. -/

/-- `SyntageRevenueData` of `src/clients/syntageClient.ts` (fields the
orchestrator reads). -/
structure SyntageRevenueData where
  merchant_id : String
  annual_revenue : ℚ
  months_active : ℚ
  tax_regime : Option String := none
  cfdi_count_last_12m : Option ℚ := none
  tax_compliance : Option Bool := none
deriving DecidableEq

/-- `FacebookResult` of `src/models/Application.ts` (fields the orchestrator
reads). -/
structure FacebookResult where
  connected : Bool
  fan_count : Option ℚ := none
  rating : Option ℚ := none
deriving DecidableEq

/-- `InstagramResult` of `src/models/Application.ts`. -/
structure InstagramResult where
  connected : Bool
  followers_count : Option ℚ := none
  media_count : Option ℚ := none
deriving DecidableEq

/-- `TwilioResult` of `src/models/Application.ts`. -/
structure TwilioResult where
  connected : Bool
  identity_match : Option Bool := none
  whatsapp_business : Option Bool := none
  sim_swap_detected : Option Bool := none
  line_type : Option String := none
deriving DecidableEq

/-- `BureauResult` of `src/models/Application.ts`. -/
structure BureauResult where
  bureau_score : Option ℚ := none
  active_debt_amount : Option ℚ := none
deriving DecidableEq

/-- `PlatformResult` of `src/models/Application.ts`. -/
structure PlatformResult where
  avg_platform_gmv_6m : Option ℚ := none
  tenure_months : Option ℚ := none
  pre_approved_amount : Option ℚ := none
deriving DecidableEq

/-- The form fields `runUnderwriting` reads off the application snapshot,
after its `?? ""` defaulting (underwriting.service.ts 45–53). -/
structure FormData where
  tax_id : String := ""
  google_business_url : String := ""
  facebook_access_token : String := ""
  instagram_access_token : String := ""
  phone : String := ""
  legal_name : String := ""
deriving DecidableEq

/-- The environment configuration the decision logic reads
(`src/config/env.ts`): the demo toggle and the approval threshold
(default 50000). -/
structure Config where
  DEMO_MODE : Bool
  APPROVAL_THRESHOLD : ℚ
deriving DecidableEq

/-- Outcome of each of the seven adapter calls of one underwriting run:
`Except.ok` a result record, or `Except.error` for a thrown transport /
malformed-response / timeout error. -/
structure FetchOutcomes where
  syntage : Except String SyntageRevenueData
  places : Except String PlacesResult
  facebook : Except String FacebookResult
  instagram : Except String InstagramResult
  twilio : Except String TwilioResult
  bureau : Except String BureauResult
  platform : Except String PlatformResult

/-- Stand-in for the JavaScript runtime's
`Number.prototype.toLocaleString("es-MX")`, an external locale facility (not
code of this repository): renders the integer part with comma thousand
separators; fractional digits are not rendered. No claim reads its output. -/
def toLocaleStringMX (q : ℚ) : String :=
  let n : ℤ := ⌊q⌋
  let sign := if n < 0 then "-" else ""
  let chunks := ((toString n.natAbs).toList.reverse.toChunks 3).map List.reverse
  sign ++ String.mk (chunks.reverse.intersperse [','] |>.flatten)

/-- Stand-in for JavaScript default number-to-string conversion inside
template literals, an external runtime facility. No claim reads its output. -/
def jsNumberToString (q : ℚ) : String :=
  if q.den = 1 then toString q.num else toString q.num ++ "/" ++ toString q.den

/-- Parameter record of `buildReason` (underwriting.service.ts 470–488). -/
structure ReasonParams where
  syntageAvailable : Bool
  placesAvailable : Bool
  facebookAvailable : Bool
  instagramAvailable : Bool
  twilioAvailable : Bool
  bureauAvailable : Bool
  platformAvailable : Bool
  syntageMonthlyRevenue : ℚ
  placesScore : ℚ
  bureauScore : Option ℚ
  platformGmv : Option ℚ
  syntageCompliance : Bool
  facebookFanCount : Option ℚ
  instagramFollowers : Option ℚ
  twilioIdentityMatch : Option Bool
  twilioWhatsapp : Option Bool
  twilioSimSwap : Option Bool

/-- Embedding of `buildReason` (underwriting.service.ts 470–526): the
human-readable reason string assembled from the available sources, joined
with single spaces. -/
def buildReason (params : ReasonParams) : String :=
  let parts : List String :=
    ["Solicitud en revisión manual para determinar nuevo monto Préstamo MÁS."]
  let parts := parts ++
    (if params.syntageAvailable then
      ["Ventas SAT: $" ++ toLocaleStringMX params.syntageMonthlyRevenue ++ " MXN/mes." ++
        (if ¬params.syntageCompliance then " ⚠️ Deuda activa con SAT detectada." else "")]
    else
      ["Datos SAT no disponibles — requiere verificación manual."])
  let parts := parts ++
    (if params.placesAvailable then
      ["Score Google Places: " ++ jsNumberToString params.placesScore ++ "/100."]
    else [])
  let parts := parts ++
    (match params.facebookAvailable, params.facebookFanCount with
     | true, some fans => ["Facebook: " ++ toLocaleStringMX fans ++ " seguidores."]
     | _, _ => [])
  let parts := parts ++
    (match params.instagramAvailable, params.instagramFollowers with
     | true, some f => ["Instagram: " ++ toLocaleStringMX f ++ " seguidores."]
     | _, _ => [])
  let parts := parts ++
    (if params.twilioAvailable then
      let twilioNotes : List String :=
        (if params.twilioIdentityMatch = some true then ["identidad verificada ✓"] else []) ++
        (if params.twilioWhatsapp = some true then ["WhatsApp Business activo ✓"] else []) ++
        (if params.twilioSimSwap = some true then ["⚠️ SIM swap reciente detectado"] else [])
      if twilioNotes.length > 0 then
        ["Twilio Lookup: " ++ String.intercalate ", " twilioNotes ++ "."]
      else []
    else [])
  let parts := parts ++
    (match params.bureauAvailable, params.bureauScore with
     | true, some s => ["Score Buró de Crédito: " ++ jsNumberToString s ++ "/850."]
     | _, _ => [])
  let parts := parts ++
    (match params.platformAvailable, params.platformGmv with
     | true, some g => ["GMV en Rappi: $" ++ toLocaleStringMX g ++ " MXN/mes."]
     | _, _ => [])
  String.intercalate " " parts

/-- The fields of `DecisionPayload` (`src/models/Application.ts`) that the
claims read; the remaining fields are verbatim copies of per-source values
with no further computation. -/
structure DecisionPayload where
  reason : String
  syntage_monthly_revenue : ℚ
  syntage_tax_compliance : Bool
  places_signals_score : ℚ
  total_revenue : ℤ
  threshold_used : ℚ
  data_sources : List String
  credit_offer : CreditOffer

/-- Return record of `runUnderwriting` (fields the claims read). -/
structure UnderwritingDecision where
  status : DecisionStatus
  payload : DecisionPayload

/-- Embedding of `runUnderwriting` (underwriting.service.ts 36–395) as a pure
function of the configuration, the application's form fields, and the seven
adapter-call outcomes. Every `catch` block of the source becomes the
`Except.error` branch of a match; sources whose required input is missing are
not attempted and get their sentinel directly, as in the source. -/
def runUnderwriting (cfg : Config) (form : FormData) (o : FetchOutcomes) :
    UnderwritingDecision :=
  -- 1. Syntage / SAT
  let syntageAvailable := match o.syntage with | .ok _ => true | .error _ => false
  let syntageMonthlyRevenue : ℚ :=
    match o.syntage with | .ok raw => raw.annual_revenue / 12 | .error _ => 0
  let syntageCompliance : Bool :=
    match o.syntage with | .ok raw => raw.tax_compliance.getD true | .error _ => true
  -- 2. Google Places (skipped without a maps URL; catch produces the sentinel)
  let placesResult : PlacesResult :=
    if form.google_business_url = "" then { connected := false }
    else match o.places with | .ok p => p | .error _ => { connected := false }
  let placesAvailable := placesResult.connected
  let placesScore : ℚ :=
    if placesResult.connected then placesResult.signals_score.getD 0 else 0
  -- 3. Facebook Pages (attempted when a token exists or DEMO_MODE)
  let facebookResult : FacebookResult :=
    if form.facebook_access_token ≠ "" ∨ cfg.DEMO_MODE then
      match o.facebook with | .ok fb => fb | .error _ => { connected := false }
    else { connected := false }
  let facebookAvailable := facebookResult.connected
  let facebookFanCount : Option ℚ :=
    if facebookResult.connected then facebookResult.fan_count else none
  -- 4. Instagram Business (attempted when either token exists or DEMO_MODE)
  let instagramResult : InstagramResult :=
    if form.instagram_access_token ≠ "" ∨ form.facebook_access_token ≠ "" ∨ cfg.DEMO_MODE then
      match o.instagram with | .ok ig => ig | .error _ => { connected := false }
    else { connected := false }
  let instagramAvailable := instagramResult.connected
  let instagramFollowers : Option ℚ :=
    if instagramResult.connected then instagramResult.followers_count else none
  -- 5. Twilio Lookup (always attempted; a placeholder phone is used if absent)
  let twilioResult : TwilioResult :=
    match o.twilio with | .ok t => t | .error _ => { connected := false }
  let twilioAvailable := twilioResult.connected
  let twilioIdentityMatch : Option Bool :=
    if twilioResult.connected then twilioResult.identity_match else none
  let twilioWhatsapp : Option Bool :=
    if twilioResult.connected then twilioResult.whatsapp_business else none
  let twilioSimSwap : Option Bool :=
    if twilioResult.connected then twilioResult.sim_swap_detected else none
  -- 7. Credit bureau
  let bureauScore : Option ℚ :=
    match o.bureau with | .ok b => b.bureau_score | .error _ => none
  let bureauAvailable := bureauScore.isSome
  -- 8. Platform
  let platformResult : Option PlatformResult :=
    match o.platform with | .ok p => some p | .error _ => none
  let platformGmv : Option ℚ :=
    match platformResult with
    | some p => p.avg_platform_gmv_6m
    | none => none
  let tenureMonths : Option ℚ :=
    match platformResult with
    | some p => if p.avg_platform_gmv_6m.isSome then p.tenure_months else none
    | none => none
  let platformAvailable := platformGmv.isSome
  -- 9. Consolidation
  let dataSources : List String :=
    (if syntageAvailable then ["syntage"] else []) ++
    (if placesAvailable then ["google_places"] else []) ++
    (if facebookAvailable then ["facebook"] else []) ++
    (if instagramAvailable then ["instagram"] else []) ++
    (if twilioAvailable then ["twilio"] else []) ++
    (if bureauAvailable then ["bureau"] else []) ++
    (if platformAvailable then ["platform"] else [])
  let totalRevenue :=
    computeTotalRevenue syntageMonthlyRevenue placesScore bureauScore tenureMonths
      syntageCompliance facebookFanCount instagramFollowers twilioIdentityMatch
      twilioWhatsapp twilioSimSwap
  -- 10. Credit offer
  let preApprovedBase : ℚ := ((platformResult.bind (·.pre_approved_amount)).getD 50000)
  let hasSocial := placesAvailable || facebookAvailable || instagramAvailable
  let hasFiscal := syntageAvailable
  let creditOffer :=
    computeCreditOffer preApprovedBase bureauScore dataSources.length hasSocial hasFiscal
  -- 11. Status
  let status := resolveStatus cfg.APPROVAL_THRESHOLD totalRevenue
  { status := status
    payload :=
      { reason := buildReason
          { syntageAvailable := syntageAvailable
            placesAvailable := placesAvailable
            facebookAvailable := facebookAvailable
            instagramAvailable := instagramAvailable
            twilioAvailable := twilioAvailable
            bureauAvailable := bureauAvailable
            platformAvailable := platformAvailable
            syntageMonthlyRevenue := syntageMonthlyRevenue
            placesScore := placesScore
            bureauScore := bureauScore
            platformGmv := platformGmv
            syntageCompliance := syntageCompliance
            facebookFanCount := facebookFanCount
            instagramFollowers := instagramFollowers
            twilioIdentityMatch := twilioIdentityMatch
            twilioWhatsapp := twilioWhatsapp
            twilioSimSwap := twilioSimSwap }
        syntage_monthly_revenue := syntageMonthlyRevenue
        syntage_tax_compliance := syntageCompliance
        places_signals_score := placesScore
        total_revenue := totalRevenue
        threshold_used := cfg.APPROVAL_THRESHOLD
        data_sources := dataSources
        credit_offer := creditOffer } }

/-! ### Claim-side definitions and concrete fixtures -/

/-- The rating sub-signal exactly as the claim words it: 25 / 20 / 12 points
at the ≥4.5 / ≥4.0 / ≥3.5 thresholds "and 5 points otherwise". For an absent
rating we charitably let the claim-side formula agree with the code
(0 points), so any disagreement is forced by a present rating alone. -/
def ratingPointsClaimed (rating : Option ℚ) : ℕ :=
  match rating with
  | none => 0
  | some r => if r ≥ 45/10 then 25 else if r ≥ 4 then 20 else if r ≥ 35/10 then 12 else 5

/-- The review-volume sub-signal as the claim words it:
20 / 15 / 10 / 5 points at ≥200 / ≥100 / ≥50 / ≥10 reviews. -/
def reviewPointsClaimed (count : Option ℚ) : ℕ :=
  match count with
  | none => 0
  | some n => if n ≥ 200 then 20 else if n ≥ 100 then 15 else if n ≥ 50 then 10
              else if n ≥ 10 then 5 else 0

/-- The price-tier sub-signal as the claim words it: 5 points at index ≥ 3. -/
def pricePointsClaimed (priceLevel : Option ℚ) : ℕ :=
  match priceLevel with
  | none => 0
  | some p => if p ≥ 3 then 5 else 0

/-- The signals score exactly as the claim words it: the additive weighted
sum of the seven sub-signals, capped by `min(sum, 100)`. -/
def signalsScoreClaimed (data : PlacesResult) : ℕ :=
  min (ratingPointsClaimed data.rating +
       reviewPointsClaimed data.total_review_count +
       (if data.is_verified = some true then 10 else 0) +
       (if data.has_website = some true then 10 else 0) +
       (if data.business_status = some "OPERATIONAL" then 10 else 0) +
       (if hasCommercialType data.categories then 10 else 0) +
       pricePointsClaimed data.price_level_index) 100

/-- The rating sub-signal as amended: the 25 / 20 / 12 / 5 tiers apply only
when a non-zero rating is present — a missing or zero rating (which the
code's truthiness guard skips) contributes 0. -/
def ratingPointsAmended (rating : Option ℚ) : ℕ :=
  match rating with
  | none => 0
  | some r =>
    if r = 0 then 0
    else if r ≥ 45/10 then 25 else if r ≥ 4 then 20 else if r ≥ 35/10 then 12 else 5

/-- The amended signals-score claim: as `signalsScoreClaimed`, with the
rating sub-signal amended to contribute 0 on a missing or zero rating. -/
def signalsScoreAmended (data : PlacesResult) : ℕ :=
  min (ratingPointsAmended data.rating +
       reviewPointsClaimed data.total_review_count +
       (if data.is_verified = some true then 10 else 0) +
       (if data.has_website = some true then 10 else 0) +
       (if data.business_status = some "OPERATIONAL" then 10 else 0) +
       (if hasCommercialType data.categories then 10 else 0) +
       pricePointsClaimed data.price_level_index) 100

/-- A connected listings result whose rating field is present but zero:
the JavaScript truthiness guard `if (data.rating)` skips the rating block. -/
def zeroRatingListing : PlacesResult :=
  { connected := true, rating := some 0 }

/-- A run where every one of the seven adapter calls threw (for witnesses). -/
def allThrownOutcomes : FetchOutcomes :=
  { syntage := .error "timed out"
    places := .error "timed out"
    facebook := .error "timed out"
    instagram := .error "timed out"
    twilio := .error "timed out"
    bureau := .error "timed out"
    platform := .error "timed out" }

/-- The default configuration: live mode, approval threshold 50000. -/
def defaultConfig : Config :=
  { DEMO_MODE := false, APPROVAL_THRESHOLD := 50000 }

/-- An application snapshot with empty form fields (for witnesses). -/
def emptyForm : FormData := {}

/-! ## Helper lemmas -/

theorem jsRound_mono {x y : ℚ} (h : x ≤ y) : jsRound x ≤ jsRound y :=
  Int.floor_le_floor (by linarith)

theorem jsRound_nonneg {x : ℚ} (h : 0 ≤ x) : 0 ≤ jsRound x :=
  Int.le_floor.mpr (by push_cast; linarith)

theorem placesBoost_nonneg {s : ℚ} (h : 0 ≤ s) : 0 ≤ placesBoost s := by
  unfold placesBoost; positivity

theorem facebookBoost_nonneg (fb : Option ℚ) : 0 ≤ facebookBoost fb := by
  cases fb with
  | none => exact le_refl 0
  | some v =>
    show (0:ℚ) ≤ if v ≥ 5000 then 8/100 else if v ≥ 1000 then 5/100 else 2/100
    split_ifs <;> norm_num

theorem instagramBoost_nonneg (ig : Option ℚ) : 0 ≤ instagramBoost ig := by
  cases ig with
  | none => exact le_refl 0
  | some v =>
    show (0:ℚ) ≤ if v ≥ 5000 then 7/100 else if v ≥ 1000 then 4/100 else 1/100
    split_ifs <;> norm_num

theorem socialBoost_nonneg (fb ig : Option ℚ) : 0 ≤ socialBoost fb ig := by
  have h1 := facebookBoost_nonneg fb
  have h2 := instagramBoost_nonneg ig
  unfold socialBoost; linarith

theorem identityBoost_nonneg (m : Option Bool) : 0 ≤ identityBoost m := by
  unfold identityBoost; split_ifs <;> norm_num

theorem whatsappBoost_nonneg (w : Option Bool) : 0 ≤ whatsappBoost w := by
  unfold whatsappBoost; split_ifs <;> norm_num

theorem simSwapPenalty_nonneg (s : Option Bool) : 0 ≤ simSwapPenalty s := by
  unfold simSwapPenalty; split_ifs <;> norm_num

theorem bureauMultiplier_nonneg (b : Option ℚ) : 0 ≤ bureauMultiplier b := by
  cases b with
  | none => exact zero_le_one
  | some v =>
    show (0:ℚ) ≤ if v > 700 then 110/100 else if v > 600 then 1 else 90/100
    split_ifs <;> norm_num

theorem tenureMultiplier_nonneg (t : Option ℚ) : 0 ≤ tenureMultiplier t := by
  cases t with
  | none => exact zero_le_one
  | some v =>
    show (0:ℚ) ≤ if v > 24 then 105/100 else if v < 6 then 95/100 else 1
    split_ifs <;> norm_num

theorem ratingPoints_le (r : Option ℚ) : ratingPoints r ≤ 25 := by
  cases r with
  | none => exact Nat.zero_le _
  | some v =>
    show (if v = 0 then 0
          else if v ≥ 45/10 then 25 else if v ≥ 4 then 20
          else if v ≥ 35/10 then 12 else 5) ≤ 25
    split_ifs <;> omega

theorem reviewPoints_le (c : Option ℚ) : reviewPoints c ≤ 20 := by
  cases c with
  | none => exact Nat.zero_le _
  | some n =>
    show (if n = 0 then 0
          else if n ≥ 200 then 20 else if n ≥ 100 then 15
          else if n ≥ 50 then 10 else if n ≥ 10 then 5 else 0) ≤ 20
    split_ifs <;> omega

theorem pricePoints_le (p : Option ℚ) : pricePoints p ≤ 5 := by
  cases p with
  | none => exact Nat.zero_le _
  | some v =>
    show (if v = 0 then 0 else if v ≥ 3 then 5 else 0) ≤ 5
    split_ifs <;> omega

theorem ratingPoints_eq_amended (r : Option ℚ) : ratingPoints r = ratingPointsAmended r := by
  cases r <;> rfl

theorem reviewPoints_eq_claimed (c : Option ℚ) : reviewPoints c = reviewPointsClaimed c := by
  cases c with
  | none => rfl
  | some n =>
    show (if n = 0 then 0
          else if n ≥ 200 then 20 else if n ≥ 100 then 15
          else if n ≥ 50 then 10 else if n ≥ 10 then 5 else 0) =
         (if n ≥ 200 then 20 else if n ≥ 100 then 15
          else if n ≥ 50 then 10 else if n ≥ 10 then 5 else 0)
    by_cases h : n = 0
    · subst h; norm_num
    · rw [if_neg h]

theorem pricePoints_eq_claimed (p : Option ℚ) : pricePoints p = pricePointsClaimed p := by
  cases p with
  | none => rfl
  | some v =>
    show (if v = 0 then 0 else if v ≥ 3 then 5 else 0) = (if v ≥ 3 then 5 else 0)
    by_cases h : v = 0
    · subst h; norm_num
    · rw [if_neg h]

theorem complianceMultiplier_nonneg (c : Bool) : 0 ≤ complianceMultiplier c := by
  unfold complianceMultiplier; split_ifs <;> norm_num

theorem runUnderwriting_status_eq (cfg : Config) (form : FormData) (o : FetchOutcomes) :
    (runUnderwriting cfg form o).status =
      resolveStatus cfg.APPROVAL_THRESHOLD (runUnderwriting cfg form o).payload.total_revenue :=
  rfl

theorem resolveStatus_cases (threshold : ℚ) (total : ℤ) :
    resolveStatus threshold total = .APPROVED ∨
    resolveStatus threshold total = .MANUAL_REVIEW ∨
    resolveStatus threshold total = .REJECTED := by
  unfold resolveStatus; split_ifs <;> simp

/-! ## Claim theorems -/

/-- C5: for every computed credit offer, withholding plus direct debit equals
the monthly payment exactly, with the withholding being
`round(payment × 0.20)` and the direct debit the subtraction remainder. -/
theorem claim5_repayment_split (baseRevenue : ℚ) (bureauScore : Option ℚ)
    (dataSourceCount : ℕ) (hasSocial hasFiscal : Bool) :
    (computeCreditOffer baseRevenue bureauScore dataSourceCount hasSocial hasFiscal).withholding_amount +
      (computeCreditOffer baseRevenue bureauScore dataSourceCount hasSocial hasFiscal).direct_debit_amount =
      (computeCreditOffer baseRevenue bureauScore dataSourceCount hasSocial hasFiscal).monthly_payment ∧
    (computeCreditOffer baseRevenue bureauScore dataSourceCount hasSocial hasFiscal).withholding_amount =
      jsRound (((computeCreditOffer baseRevenue bureauScore dataSourceCount hasSocial hasFiscal).monthly_payment : ℚ) * (20/100)) ∧
    (computeCreditOffer baseRevenue bureauScore dataSourceCount hasSocial hasFiscal).direct_debit_amount =
      (computeCreditOffer baseRevenue bureauScore dataSourceCount hasSocial hasFiscal).monthly_payment -
        (computeCreditOffer baseRevenue bureauScore dataSourceCount hasSocial hasFiscal).withholding_amount := by
  refine ⟨?_, rfl, rfl⟩
  have hd : (computeCreditOffer baseRevenue bureauScore dataSourceCount hasSocial hasFiscal).direct_debit_amount =
      (computeCreditOffer baseRevenue bureauScore dataSourceCount hasSocial hasFiscal).monthly_payment -
        (computeCreditOffer baseRevenue bureauScore dataSourceCount hasSocial hasFiscal).withholding_amount := rfl
  rw [hd]; omega

/-- C6: every credit offer's approved amount is the pre-approved base times
the tier multiplier (2.0 with fiscal data, else 1.4 with social data, else
1.2), put on a thousand-unit grid via `round(base × multiplier / 1000) × 1000`;
with fiscal data and base 50000 the approved amount is 100000. -/
theorem claim6_approved_amount :
    (∀ (baseRevenue : ℚ) (bureauScore : Option ℚ) (dataSourceCount : ℕ)
       (hasSocial hasFiscal : Bool),
      (computeCreditOffer baseRevenue bureauScore dataSourceCount hasSocial hasFiscal).approved_amount =
        jsRound (baseRevenue * (if hasFiscal then 2 else if hasSocial then 14/10 else 12/10) / 1000) * 1000) ∧
    (computeCreditOffer 50000 (some 650) 1 false true).approved_amount = 100000 := by
  constructor
  · intro baseRevenue bureauScore dataSourceCount hasSocial hasFiscal
    rfl
  · norm_num [computeCreditOffer, jsRound]

/-- C10: the accumulated signals score is bounded by 90 — the sub-score
weights 25 + 20 + 10 + 10 + 10 + 10 + 5 — so `computeSignalsScore` always
equals the uncapped sum: the `min(sum, 100)` cap is never binding. -/
theorem claim10_score_at_most_90 (data : PlacesResult) :
    signalsSum data ≤ 90 ∧ computeSignalsScore data = signalsSum data := by
  have h : signalsSum data ≤ 90 := by
    have h1 := ratingPoints_le data.rating
    have h2 := reviewPoints_le data.total_review_count
    have h3 := pricePoints_le data.price_level_index
    unfold signalsSum
    split_ifs <;> omega
  exact ⟨h, min_eq_left (h.trans (by norm_num))⟩

/-- C7 counterexample: a connected listing whose rating field is present but
zero. The claim's formula assigns the rating sub-signal 5 points ("otherwise"
tier), total 5; the code's truthiness guard `if (data.rating)` skips the
rating block entirely, total 0. -/
theorem claim7_counterexample :
    computeSignalsScore zeroRatingListing = 0 ∧
    signalsScoreClaimed zeroRatingListing = 5 ∧
    computeSignalsScore zeroRatingListing ≠ signalsScoreClaimed zeroRatingListing := by
  have e1 : computeSignalsScore zeroRatingListing = 0 := by
    norm_num [computeSignalsScore, signalsSum, zeroRatingListing, ratingPoints,
      reviewPoints, pricePoints, hasCommercialType]
    simp
  have e2 : signalsScoreClaimed zeroRatingListing = 5 := by
    norm_num [signalsScoreClaimed, zeroRatingListing, ratingPointsClaimed,
      reviewPointsClaimed, pricePointsClaimed, hasCommercialType]
    simp
  exact ⟨e1, e2, by rw [e1, e2]; omega⟩

/-- C7 (amended): for every listings result the signals score is the additive
weighted sum capped by `min(sum, 100)` — the rating tiers 25 / 20 / 12 / 5
applying only when a non-zero rating is present (a missing or zero rating
contributes 0) — and the resulting score always lies within [0, 100]. -/
theorem claim7_amended_signals_score (data : PlacesResult) :
    computeSignalsScore data = signalsScoreAmended data ∧
    computeSignalsScore data ≤ 100 := by
  constructor
  · unfold computeSignalsScore signalsScoreAmended signalsSum
    rw [ratingPoints_eq_amended, reviewPoints_eq_claimed, pricePoints_eq_claimed]
  · exact min_le_right _ _

/-- C1: for every input with a non-zero tax/revenue monthly base, the total
weighted revenue is the base times the listings, social, identity-match,
business-messaging, SIM-swap, bureau, tenure and compliance factors — the
product rounded to the nearest integer currency unit; in particular the
specification's reference scenario yields 79279. -/
theorem claim1_total_revenue_formula :
    (∀ (syntageMonthly placesScore : ℚ) (bureauScore tenureMonths : Option ℚ)
       (taxCompliance : Bool) (facebookFans instagramFollowers : Option ℚ)
       (twilioIdentityMatch twilioWhatsapp twilioSimSwap : Option Bool),
      syntageMonthly ≠ 0 →
      computeTotalRevenue syntageMonthly placesScore bureauScore tenureMonths
          taxCompliance facebookFans instagramFollowers twilioIdentityMatch
          twilioWhatsapp twilioSimSwap =
        jsRound (syntageMonthly
          * (1 + placesScore / 100 * (20/100))
          * (1 +
              (match facebookFans with
               | none => 0
               | some fans =>
                 if fans ≥ 5000 then 8/100 else if fans ≥ 1000 then 5/100 else (2/100 : ℚ)) +
              (match instagramFollowers with
               | none => 0
               | some f =>
                 if f ≥ 5000 then 7/100 else if f ≥ 1000 then 4/100 else (1/100 : ℚ)))
          * (if twilioIdentityMatch = some true then 105/100 else 1)
          * (if twilioWhatsapp = some true then 103/100 else 1)
          * (if twilioSimSwap = some true then 90/100 else 1)
          * (match bureauScore with
             | none => 1
             | some s => if s > 700 then 110/100 else if s > 600 then 1 else (90/100 : ℚ))
          * (match tenureMonths with
             | none => 1
             | some t => if t > 24 then 105/100 else if t < 6 then 95/100 else (1 : ℚ))
          * (if taxCompliance then 1 else 80/100))) ∧
    computeTotalRevenue 60000 72 (some 720) (some 36) true none none none none none = 79279 := by
  constructor
  · intro sm ps bu te tc fb ig im wa ss h
    cases fb <;> cases ig <;> cases bu <;> cases te <;>
      simp only [computeTotalRevenue, placesBoost, socialBoost, facebookBoost,
        instagramBoost, identityBoost, whatsappBoost, simSwapPenalty,
        bureauMultiplier, tenureMultiplier, complianceMultiplier, if_neg h]
  · norm_num [computeTotalRevenue, placesBoost, socialBoost, facebookBoost,
      instagramBoost, identityBoost, whatsappBoost, simSwapPenalty,
      bureauMultiplier, tenureMultiplier, complianceMultiplier, jsRound]
    simp
    all_goals norm_num

/-- C1 witness: the formula applied at the reference scenario (base 60000,
listings score 72, bureau 720, tenure 36, compliant, no social or phone
data), with the non-zero-base hypothesis discharged. -/
theorem claim1_witness :
    computeTotalRevenue 60000 72 (some 720) (some 36) true none none none none none =
      jsRound (60000 * (1 + (72:ℚ)/100 * (20/100)) * (1 + 0 + 0) * 1 * 1 * 1
        * (110/100) * (105/100) * 1) := by
  have h := claim1_total_revenue_formula.1 60000 72 (some 720) (some 36) true
    none none none none none (by norm_num)
  rw [h]
  norm_num [jsRound]
  simp
  all_goals norm_num

/-- C3: every underwriting run's status is the resolver's output; and for a
positive configured threshold the resolver yields APPROVED at or above the
threshold (hence on exact equality), MANUAL_REVIEW strictly between 0 and
the threshold, REJECTED at 0, and never any other state. -/
theorem claim3_decision_resolver :
    (∀ (cfg : Config) (form : FormData) (o : FetchOutcomes),
      (runUnderwriting cfg form o).status =
        resolveStatus cfg.APPROVAL_THRESHOLD
          (runUnderwriting cfg form o).payload.total_revenue) ∧
    (∀ (threshold : ℚ) (total : ℤ), 0 < threshold →
      ((threshold ≤ (total : ℚ) → resolveStatus threshold total = .APPROVED) ∧
       (0 < total → (total : ℚ) < threshold →
         resolveStatus threshold total = .MANUAL_REVIEW) ∧
       (total = 0 → resolveStatus threshold total = .REJECTED) ∧
       (resolveStatus threshold total = .APPROVED ∨
        resolveStatus threshold total = .MANUAL_REVIEW ∨
        resolveStatus threshold total = .REJECTED) ∧
       ((total : ℚ) = threshold → resolveStatus threshold total = .APPROVED))) := by
  constructor
  · intro cfg form o
    rfl
  · intro threshold total h
    refine ⟨?_, ?_, ?_, resolveStatus_cases _ _, ?_⟩
    · intro hle
      unfold resolveStatus
      rw [if_pos hle]
    · intro hpos hlt
      unfold resolveStatus
      rw [if_neg (not_le.mpr hlt), if_pos hpos]
    · intro h0
      subst h0
      unfold resolveStatus
      rw [if_neg (by push_cast; linarith), if_neg (lt_irrefl 0)]
    · intro heq
      unfold resolveStatus
      rw [if_pos (le_of_eq heq.symm)]

/-- C3 witness: at threshold 50000, a total of exactly 50000 is APPROVED
(the boundary case), 30000 is MANUAL_REVIEW, and 0 is REJECTED. -/
theorem claim3_witness :
    resolveStatus 50000 50000 = DecisionStatus.APPROVED ∧
    resolveStatus 50000 30000 = DecisionStatus.MANUAL_REVIEW ∧
    resolveStatus 50000 0 = DecisionStatus.REJECTED := by
  have h := claim3_decision_resolver.2 50000
  exact ⟨(h 50000 (by norm_num)).1 (by norm_num),
         (h 30000 (by norm_num)).2.1 (by norm_num) (by norm_num),
         (h 0 (by norm_num)).2.2.1 rfl⟩

/-- C2: whenever the tax/revenue adapter call fails, the run's total revenue
is 0 and (for a positive configured threshold) the status is REJECTED, no
matter what every other source returned; and the total revenue of the scoring
engine is non-zero only when the tax/revenue monthly base is non-zero. -/
theorem claim2_unavailable_tax_rejected :
    (∀ (cfg : Config) (form : FormData) (o : FetchOutcomes) (e : String),
      o.syntage = .error e → 0 < cfg.APPROVAL_THRESHOLD →
      (runUnderwriting cfg form o).payload.total_revenue = 0 ∧
      (runUnderwriting cfg form o).status = .REJECTED) ∧
    (∀ (syntageMonthly placesScore : ℚ) (bureauScore tenureMonths : Option ℚ)
       (taxCompliance : Bool) (facebookFans instagramFollowers : Option ℚ)
       (twilioIdentityMatch twilioWhatsapp twilioSimSwap : Option Bool),
      computeTotalRevenue syntageMonthly placesScore bureauScore tenureMonths
          taxCompliance facebookFans instagramFollowers twilioIdentityMatch
          twilioWhatsapp twilioSimSwap ≠ 0 →
      syntageMonthly ≠ 0) := by
  constructor
  · intro cfg form o e he hthr
    obtain ⟨s1, s2, s3, s4, s5, s6, s7⟩ := o
    dsimp only at he
    subst he
    have h0 : (runUnderwriting cfg form
        ⟨.error e, s2, s3, s4, s5, s6, s7⟩).payload.total_revenue = 0 := rfl
    refine ⟨h0, ?_⟩
    rw [runUnderwriting_status_eq, h0]
    unfold resolveStatus
    rw [if_neg (by push_cast; linarith), if_neg (lt_irrefl 0)]
  · intro sm ps bu te tc fb ig im wa ss hne heq
    subst heq
    exact hne rfl

/-- C2 witness: a run whose tax/revenue call threw (here: every call threw)
under the default threshold 50000. -/
theorem claim2_witness :
    (runUnderwriting defaultConfig emptyForm allThrownOutcomes).payload.total_revenue = 0 ∧
    (runUnderwriting defaultConfig emptyForm allThrownOutcomes).status =
      DecisionStatus.REJECTED :=
  claim2_unavailable_tax_rejected.1 defaultConfig emptyForm allThrownOutcomes
    "timed out" rfl (by norm_num [defaultConfig])

/-- C4: the embedded `runUnderwriting` is a total function — every adapter
throw is an `Except.error` consumed by a catch branch, so each run yields one
of the three decision states for any combination of outcomes; and a run in
which all seven calls failed still completes, with status REJECTED and the
human-readable reason flagging the missing tax/revenue data. -/
theorem claim4_never_throws_all_unavailable (cfg : Config) (form : FormData)
    (o : FetchOutcomes) (hthr : 0 < cfg.APPROVAL_THRESHOLD) :
    ((runUnderwriting cfg form o).status = .APPROVED ∨
     (runUnderwriting cfg form o).status = .MANUAL_REVIEW ∨
     (runUnderwriting cfg form o).status = .REJECTED) ∧
    (∀ e1 e2 e3 e4 e5 e6 e7 : String,
      o.syntage = .error e1 → o.places = .error e2 → o.facebook = .error e3 →
      o.instagram = .error e4 → o.twilio = .error e5 → o.bureau = .error e6 →
      o.platform = .error e7 →
      (runUnderwriting cfg form o).status = .REJECTED ∧
      (runUnderwriting cfg form o).payload.reason =
        "Solicitud en revisión manual para determinar nuevo monto Préstamo MÁS. Datos SAT no disponibles — requiere verificación manual.") := by
  constructor
  · rw [runUnderwriting_status_eq]
    exact resolveStatus_cases _ _
  · intro e1 e2 e3 e4 e5 e6 e7 h1 h2 h3 h4 h5 h6 h7
    obtain ⟨s1, s2, s3, s4, s5, s6, s7⟩ := o
    dsimp only at h1 h2 h3 h4 h5 h6 h7
    subst h1 h2 h3 h4 h5 h6 h7
    constructor
    · have h0 : (runUnderwriting cfg form
          ⟨.error e1, .error e2, .error e3, .error e4, .error e5, .error e6,
           .error e7⟩).payload.total_revenue = 0 := rfl
      rw [runUnderwriting_status_eq, h0]
      unfold resolveStatus
      rw [if_neg (by push_cast; linarith), if_neg (lt_irrefl 0)]
    · simp only [runUnderwriting, ite_self, buildReason]
      rfl

/-- C4 witness: the run in which all seven adapter calls threw, under the
default threshold: it completes with REJECTED and the missing-data reason. -/
theorem claim4_witness :
    (runUnderwriting defaultConfig emptyForm allThrownOutcomes).status =
      DecisionStatus.REJECTED ∧
    (runUnderwriting defaultConfig emptyForm allThrownOutcomes).payload.reason =
      "Solicitud en revisión manual para determinar nuevo monto Préstamo MÁS. Datos SAT no disponibles — requiere verificación manual." :=
  (claim4_never_throws_all_unavailable defaultConfig emptyForm allThrownOutcomes
      (by norm_num [defaultConfig])).2
    "timed out" "timed out" "timed out" "timed out" "timed out" "timed out"
    "timed out" rfl rfl rfl rfl rfl rfl rfl

/-- C8: for nonnegative base and listings score (which every adapter-produced
source result satisfies), the total weighted revenue is nonnegative; and it
is a pure function of its inputs — the same source results give the same
total. -/
theorem claim8_nonneg_deterministic :
    ∀ (syntageMonthly placesScore : ℚ) (bureauScore tenureMonths : Option ℚ)
      (taxCompliance : Bool) (facebookFans instagramFollowers : Option ℚ)
      (twilioIdentityMatch twilioWhatsapp twilioSimSwap : Option Bool),
      0 ≤ syntageMonthly → 0 ≤ placesScore →
      0 ≤ computeTotalRevenue syntageMonthly placesScore bureauScore tenureMonths
            taxCompliance facebookFans instagramFollowers twilioIdentityMatch
            twilioWhatsapp twilioSimSwap ∧
      computeTotalRevenue syntageMonthly placesScore bureauScore tenureMonths
          taxCompliance facebookFans instagramFollowers twilioIdentityMatch
          twilioWhatsapp twilioSimSwap =
        computeTotalRevenue syntageMonthly placesScore bureauScore tenureMonths
          taxCompliance facebookFans instagramFollowers twilioIdentityMatch
          twilioWhatsapp twilioSimSwap := by
  intro sm ps bu te tc fb ig im wa ss hsm hps
  refine ⟨?_, rfl⟩
  unfold computeTotalRevenue
  split_ifs with h
  · exact le_refl 0
  · apply jsRound_nonneg
    have h1 := placesBoost_nonneg hps
    have h2 := socialBoost_nonneg fb ig
    have h3 := identityBoost_nonneg im
    have h4 := whatsappBoost_nonneg wa
    have h5 := simSwapPenalty_nonneg ss
    have h6 := bureauMultiplier_nonneg bu
    have h7 := tenureMultiplier_nonneg te
    have h8 := complianceMultiplier_nonneg tc
    exact mul_nonneg (mul_nonneg (mul_nonneg (mul_nonneg (mul_nonneg (mul_nonneg
      (mul_nonneg (mul_nonneg hsm h1) h2) h3) h4) h5) h6) h7) h8

/-- C8 witness: the reference scenario has nonnegative base and score, and
its total is nonnegative. -/
theorem claim8_witness :
    0 ≤ computeTotalRevenue 60000 72 (some 720) (some 36) true none none none none none ∧
    computeTotalRevenue 60000 72 (some 720) (some 36) true none none none none none =
      computeTotalRevenue 60000 72 (some 720) (some 36) true none none none none none :=
  claim8_nonneg_deterministic 60000 72 (some 720) (some 36) true none none none
    none none (by norm_num) (by norm_num)

/-- C9: holding everything else fixed (with nonnegative base and listings
score, as every adapter-produced input satisfies), raising the bureau score
from any value ≤ 600 to any value > 700 never decreases the total weighted
revenue. -/
theorem claim9_bureau_monotonic :
    ∀ (syntageMonthly placesScore b1 b2 : ℚ) (tenureMonths : Option ℚ)
      (taxCompliance : Bool) (facebookFans instagramFollowers : Option ℚ)
      (twilioIdentityMatch twilioWhatsapp twilioSimSwap : Option Bool),
      0 ≤ syntageMonthly → 0 ≤ placesScore → b1 ≤ 600 → 700 < b2 →
      computeTotalRevenue syntageMonthly placesScore (some b1) tenureMonths
          taxCompliance facebookFans instagramFollowers twilioIdentityMatch
          twilioWhatsapp twilioSimSwap ≤
        computeTotalRevenue syntageMonthly placesScore (some b2) tenureMonths
          taxCompliance facebookFans instagramFollowers twilioIdentityMatch
          twilioWhatsapp twilioSimSwap := by
  intro sm ps b1 b2 te tc fb ig im wa ss hsm hps hb1 hb2
  unfold computeTotalRevenue
  split_ifs with h
  · exact le_refl 0
  · apply jsRound_mono
    have e1 : bureauMultiplier (some b1) = 90/100 := by
      show (if b1 > 700 then (110:ℚ)/100 else if b1 > 600 then 1 else 90/100) = 90/100
      rw [if_neg (by linarith), if_neg (by linarith)]
    have e2 : bureauMultiplier (some b2) = 110/100 := by
      show (if b2 > 700 then (110:ℚ)/100 else if b2 > 600 then 1 else 90/100) = 110/100
      rw [if_pos hb2]
    rw [e1, e2]
    have hX : 0 ≤ sm * placesBoost ps * socialBoost fb ig * identityBoost im *
        whatsappBoost wa * simSwapPenalty ss :=
      mul_nonneg (mul_nonneg (mul_nonneg (mul_nonneg (mul_nonneg hsm
        (placesBoost_nonneg hps)) (socialBoost_nonneg fb ig))
        (identityBoost_nonneg im)) (whatsappBoost_nonneg wa))
        (simSwapPenalty_nonneg ss)
    have hbm : (sm * placesBoost ps * socialBoost fb ig * identityBoost im *
        whatsappBoost wa * simSwapPenalty ss) * (90/100) ≤
        (sm * placesBoost ps * socialBoost fb ig * identityBoost im *
        whatsappBoost wa * simSwapPenalty ss) * (110/100) :=
      mul_le_mul_of_nonneg_left (by norm_num) hX
    exact mul_le_mul_of_nonneg_right (mul_le_mul_of_nonneg_right hbm
      (tenureMultiplier_nonneg te)) (complianceMultiplier_nonneg tc)

/-- C9 witness: bureau 600 versus 720 at the reference scenario, with all
hypotheses discharged. -/
theorem claim9_witness :
    computeTotalRevenue 60000 72 (some 600) (some 36) true none none none none none ≤
      computeTotalRevenue 60000 72 (some 720) (some 36) true none none none none none :=
  claim9_bureau_monotonic 60000 72 600 720 (some 36) true none none none none
    none (by norm_num) (by norm_num) (by norm_num) (by norm_num)

end FRB
